import Mathlib

/-!
Shallow embedding of `src/stdlib/gipuma/gipuma_kernel.cpp`, the Gipuma
multi-view-stereo kernel of the scanner project, together with theorems
settling the specification claims about it.

Conventions of the embedding:
* machine floating-point quantities are embedded as rationals (`ℚ`);
* the gipuma library helpers that the kernel calls but that are not part of
  this repository's sources (`getCameraParameters`, `selectViews`,
  `disparityDepthConversion`, the results-buffer `resize`) are either taken
  as function parameters or modelled from the specification, as indicated
  in the doc comment of each such definition;
* fatal `assert` failures are modelled as an explicit fatal outcome of the
  operation (`PlanResult.assertFailed`, `ExecResult.assertFailed`), distinct
  from the soft validity status (`Valid`).
-/

namespace GipumaSpec

/-- Validity record mirroring `proto::Result` (success flag plus message),
as used by `GipumaKernel::valid_` and `GipumaKernel::validate`. -/
@[ext]
structure Valid where
  success : Bool
  msg : String
deriving DecidableEq

/-- Per-camera record of the gipuma `CameraParameters` entries: the flattened
3x4 projection matrix exactly as copied by the constructor loop (row-major,
entry `i*4+j`), plus the fields the kernel reads or writes (`baseline`,
`depthMin`, `depthMax`).  The `rayAngle` field is the viewing-ray angle of
this camera to the reference camera, the geometric quantity the gipuma
`selectViews` helper tests against the angle bounds; it is carried here
because that helper is modelled from the spec (its code is not under
`src/`). -/
@[ext]
structure GipumaCamera where
  P : List ℚ
  baseline : ℚ
  rayAngle : ℚ
  depthMin : ℚ
  depthMax : ℚ
deriving DecidableEq

/-- The gipuma `CameraParameters` aggregate: shared focal length `f`, the
per-camera records, and the view-selection subset filled in by
`selectViews`. -/
@[ext]
structure CameraParameters where
  f : ℚ
  cameras : List GipumaCamera
  viewSelectionSubset : List ℕ
deriving DecidableEq

/-- The gipuma `AlgorithmParameters` fields touched by the kernel
(`gipuma_kernel.cpp`, constructor and `new_frame_info`). -/
@[ext]
structure AlgorithmParameters where
  num_img_processed : ℕ
  min_angle : ℚ
  max_angle : ℚ
  min_disparity : ℚ
  max_disparity : ℚ
  depthMin : ℚ
  depthMax : ℚ
  iterations : ℕ
  box_hsize : ℕ
  box_vsize : ℕ
  cols : ℕ
  rows : ℕ
deriving DecidableEq

/-- State of the per-pixel results buffer `state_->lines`: the element count
`n`, the strides `s` and `l`, and the allocation bookkeeping of its
resizable storage (`size` = current element count, `capacity` = allocated
element count, `allocCount` = number of reallocations performed so far). -/
@[ext]
structure LineState where
  n : ℕ
  size : ℕ
  capacity : ℕ
  allocCount : ℕ
  s : ℕ
  l : ℕ
deriving DecidableEq

/-- Modelled from the spec: resizing the per-pixel results buffer (gipuma
buffer code, not under `src/`).  Standard growable-buffer semantics: the
stored element count becomes `m`, and a reallocation happens only when `m`
exceeds the current capacity. -/
def LineState.resize (ls : LineState) (m : ℕ) : LineState :=
  if m ≤ ls.capacity then { ls with size := m }
  else { ls with size := m, capacity := m, allocCount := ls.allocCount + 1 }

/-- Theorem-independent fact used in several claim proofs: resizing always
leaves the buffer at exactly the requested element count. -/
theorem LineState.size_resize (ls : LineState) (m : ℕ) : (ls.resize m).size = m := by
  unfold LineState.resize
  split <;> rfl

/-- The mutable state of one `GipumaKernel` instance: the validity record,
the cached camera count `num_cameras_`, the algorithm parameters, the camera
parameters, the results buffer, and the fields of `GlobalState::cameras`
written by `new_frame_info` (the copied view-selection subset, its count,
and the frame size).  `rigBuilt` records whether the constructor reached the
camera-rig building step (the projection-matrix copy loop followed by the
`getCameraParameters` call). -/
@[ext]
structure GipumaKernelState where
  valid : Valid
  numCameras : ℕ
  algoParams : AlgorithmParameters
  cameraParams : CameraParameters
  lines : LineState
  stateViewSelectionSubset : List ℕ
  viewSelectionSubsetNumber : ℕ
  stateCols : ℕ
  stateRows : ℕ
  rigBuilt : Bool
deriving DecidableEq

/-- The parsed `proto::GipumaArgs` fields read by the constructor: one
flattened 3x4 projection matrix per camera plus the scalar parameters. -/
@[ext]
structure GipumaArgs where
  cameras : List (List ℚ)
  min_disparity : ℚ
  max_disparity : ℚ
  min_depth : ℚ
  max_depth : ℚ
  iterations : ℕ
  kernel_width : ℕ
  kernel_height : ℕ
deriving DecidableEq

/-- The camera/channel cardinality test exactly as written in the source
(`gipuma_kernel.cpp` line 43): `!args_.cameras_size() * 2 ==
config.input_columns.size()`.  C++ operator precedence applies the logical
negation to the camera count before the multiplication, so the left-hand
side is `2` when the declared camera count is `0` and `0` otherwise. -/
def mismatchTestFires (camerasSize inputColumns : ℕ) : Bool :=
  decide (((if camerasSize = 0 then 1 else 0) * 2 : ℕ) = inputColumns)

/-- Message attached by `RESULT_ERROR` when the cardinality test fires,
carrying the declared camera count and the observed column count. -/
def mismatchMsg (camerasSize inputColumns : ℕ) : String :=
  "GipumaKernel args specified " ++ toString camerasSize ++
    " cameras but received " ++ toString inputColumns ++ " columns as input"

/-- Algorithm parameters as filled in by the constructor before the
cardinality check: the fixed angle domain (1 and 90 degrees) and the
advisory values from the parsed args. -/
def initialAlgoParams (args : GipumaArgs) : AlgorithmParameters :=
  { num_img_processed := args.cameras.length
    min_angle := 1
    max_angle := 90
    min_disparity := args.min_disparity
    max_disparity := args.max_disparity
    depthMin := args.min_depth
    depthMax := args.max_depth
    iterations := args.iterations
    box_hsize := args.kernel_width
    box_vsize := args.kernel_height
    cols := 0
    rows := 0 }

/-- Embedding of the `GipumaKernel` constructor on the path where protobuf
parsing succeeded.  `gcp` stands for the external gipuma library function
`getCameraParameters` (not part of this repository), which decomposes the
projection matrices into focal length, rotations and baselines; the
constructor is parameterised over it because none of the claims constrain
its numeric output.  Field order follows the source: validity starts as
success, `num_cameras_` and the algorithm parameters are set, then the
cardinality test runs (returning early in its error branch), and only
afterwards are the per-camera projection matrices copied and the rig
built. -/
def GipumaKernel.construct (gcp : CameraParameters → CameraParameters)
    (args : GipumaArgs) (inputColumns : ℕ) : GipumaKernelState :=
  let base : GipumaKernelState :=
    { valid := { success := true, msg := "" }
      numCameras := args.cameras.length
      algoParams := initialAlgoParams args
      cameraParams := { f := 0, cameras := [], viewSelectionSubset := [] }
      lines := { n := 0, size := 0, capacity := 0, allocCount := 0, s := 0, l := 0 }
      stateViewSelectionSubset := []
      viewSelectionSubsetNumber := 0
      stateCols := 0
      stateRows := 0
      rigBuilt := false }
  if mismatchTestFires args.cameras.length inputColumns then
    { base with
      valid := { success := false
                 msg := mismatchMsg args.cameras.length inputColumns } }
  else
    let rawCameras : List GipumaCamera := args.cameras.map (fun p =>
      { P := p, baseline := 0, rayAngle := 0, depthMin := 0, depthMax := 0 })
    { base with
      cameraParams := gcp { f := 0, cameras := rawCameras, viewSelectionSubset := [] }
      rigBuilt := true }

/-- Embedding of `GipumaKernel::validate`: it copies the stored validity
record into the result. -/
def GipumaKernel.validate (st : GipumaKernelState) : Valid := st.valid

/-- Concrete configuration declaring 3 cameras (all-zero projection
matrices; their values are irrelevant to the cardinality check). -/
def threeCameraArgs : GipumaArgs :=
  { cameras := [List.replicate 12 0, List.replicate 12 0, List.replicate 12 0]
    min_disparity := 0
    max_disparity := 256
    min_depth := 1
    max_depth := 100
    iterations := 8
    kernel_width := 19
    kernel_height := 19 }

/-- C1: evaluation of the constructor at the spec's own malformed input —
3 declared cameras with 5 input columns.  Because of the precedence slip in
`!args_.cameras_size() * 2 == config.input_columns.size()` the test
compares `0 == 5`, does not fire, and the kernel stays marked valid and
proceeds to build the camera rig, contradicting the claimed validation
behaviour. -/
theorem c1_mismatch_not_detected :
    (GipumaKernel.validate (GipumaKernel.construct id threeCameraArgs 5)).success = true ∧
    (GipumaKernel.construct id threeCameraArgs 5).rigBuilt = true := by
  constructor <;> rfl

/-- Modelled from the spec: the gipuma helper `disparityDepthConversion`
(not under `src/`) converts a depth value into a disparity — focal length
times baseline divided by depth. -/
def disparityDepthConversion (f baseline d : ℚ) : ℚ := f * baseline / d

/-- Modelled from the spec: the per-camera qualification test of the gipuma
`selectViews` helper (not under `src/`) — an auxiliary camera (an index
other than the reference index 0) qualifies when its viewing-ray angle to
the reference camera lies within the configured angle bounds. -/
def viewQualifies (ap : AlgorithmParameters) (cams : List GipumaCamera) (i : ℕ) : Bool :=
  match cams[i]? with
  | some c =>
      decide (0 < i) && decide (ap.min_angle ≤ c.rayAngle) &&
        decide (c.rayAngle ≤ ap.max_angle)
  | none => false

/-- Modelled from the spec: `selectViews` (gipuma library, not under
`src/`) fills `viewSelectionSubset` with the indices of the qualifying
auxiliary cameras.  The frame-size arguments are threaded through exactly
as in the source call; the angle test does not depend on them. -/
def selectViews (cp : CameraParameters) ( _w _h : ℕ) (ap : AlgorithmParameters) :
    CameraParameters :=
  { cp with
    viewSelectionSubset :=
      (List.range cp.cameras.length).filter (viewQualifies ap cp.cameras) }

/-- Per-camera planning loop of `new_frame_info` (`gipuma_kernel.cpp` lines
81–94): each camera's depth bounds are overwritten with the
algorithm-parameter depth bounds, and the shared disparity bounds are
recomputed from that camera's baseline — every iteration overwriting the
values left by the previous one. -/
def planCameras (f : ℚ) :
    List GipumaCamera → AlgorithmParameters → List GipumaCamera × AlgorithmParameters
  | [], ap => ([], ap)
  | c :: rest, ap =>
    let c2 : GipumaCamera := { c with depthMin := ap.depthMin, depthMax := ap.depthMax }
    let ap2 : AlgorithmParameters :=
      { ap with
        min_disparity := disparityDepthConversion f c2.baseline c2.depthMax
        max_disparity := disparityDepthConversion f c2.baseline c2.depthMin }
    let r := planCameras f rest ap2
    (c2 :: r.1, r.2)

/-- The state produced by the successful branch of
`GipumaKernel::new_frame_info` for frame size `w × h`: the view-selection
subset from `selectViews`, the per-camera planning loop, the copy of the
subset and frame size into `GlobalState::cameras`, and the results-buffer
update (`n`, `resize`, strides `s` and `l`). -/
def plannedState (st : GipumaKernelState) ( w h : ℕ) : GipumaKernelState :=
  let cp := selectViews st.cameraParams w h st.algoParams
  let pr := planCameras cp.f cp.cameras st.algoParams
  let lines2 := ({ st.lines with n := h * w }).resize (h * w)
  { st with
    cameraParams := { cp with cameras := pr.1 }
    algoParams := { pr.2 with cols := w, rows := h }
    stateViewSelectionSubset := cp.viewSelectionSubset
    viewSelectionSubsetNumber := cp.viewSelectionSubset.length
    stateCols := w
    stateRows := h
    lines := { lines2 with s := w, l := w } }

/-- Outcome of `GipumaKernel::new_frame_info`: either the planned state, or
the fatal `assert(selected_views > 0)` failure (a process-terminating
assertion, not a soft validity error). -/
inductive PlanResult where
  | ok (st : GipumaKernelState)
  | assertFailed
deriving DecidableEq

/-- Embedding of `GipumaKernel::new_frame_info` (lines 71–114): run
`selectViews`, assert that the selected-view count is positive (modelled as
the fatal `assertFailed` outcome), then perform the per-camera planning
loop, the state copies and the results-buffer update of `plannedState`. -/
def new_frame_info (st : GipumaKernelState) ( w h : ℕ) : PlanResult :=
  if 0 < (selectViews st.cameraParams w h st.algoParams).viewSelectionSubset.length then
    PlanResult.ok (plannedState st w h)
  else PlanResult.assertFailed

/-- Inversion of successful planning: an `ok` result is exactly a positive
selected-view count together with the planned state. -/
theorem new_frame_info_ok_iff (st : GipumaKernelState) ( w h : ℕ)
    (st' : GipumaKernelState) :
    new_frame_info st w h = PlanResult.ok st' ↔
      (0 < ((List.range st.cameraParams.cameras.length).filter
          (viewQualifies st.algoParams st.cameraParams.cameras)).length ∧
        st' = plannedState st w h) := by
  simp only [new_frame_info, selectViews]
  constructor
  · intro hok
    split at hok
    · next hpos => exact ⟨hpos, (PlanResult.ok.injEq _ _ ▸ hok).symm⟩
    · exact absurd hok (by simp)
  · intro h
    obtain ⟨hpos, hst⟩ := h
    split
    · rw [hst]
    · next hneg => exact absurd hpos hneg

/-- Shape of the camera list produced by the planning loop: every camera's
depth bounds are overwritten with the algorithm-parameter bounds; nothing
else changes. -/
theorem planCameras_fst (f : ℚ) (cs : List GipumaCamera) (ap : AlgorithmParameters) :
    (planCameras f cs ap).1 =
      cs.map (fun c => { c with depthMin := ap.depthMin, depthMax := ap.depthMax }) := by
  induction cs generalizing ap with
  | nil => rfl
  | cons c rest ih => simp [planCameras, ih]

/-- Shape of the algorithm parameters produced by the planning loop on a
non-empty camera list: only the two disparity fields change, and they are
derived from the baseline of the last camera of the list. -/
theorem planCameras_snd (f : ℚ) (cs : List GipumaCamera) (ap : AlgorithmParameters)
    (c : GipumaCamera) (hlast : cs.getLast? = some c) :
    (planCameras f cs ap).2 =
      { ap with
        min_disparity := disparityDepthConversion f c.baseline ap.depthMax
        max_disparity := disparityDepthConversion f c.baseline ap.depthMin } := by
  induction cs generalizing ap with
  | nil => simp at hlast
  | cons a rest ih =>
    cases rest with
    | nil =>
      simp only [List.getLast?_singleton, Option.some.injEq] at hlast
      subst hlast
      rfl
    | cons b rest2 =>
      have h2 : (b :: rest2).getLast? = some c := by
        rw [List.getLast?_cons_cons] at hlast
        exact hlast
      show (planCameras f (b :: rest2) _).2 = _
      rw [ih _ h2]

/-- The planning loop never touches the angle or depth-bound fields of the
algorithm parameters (nor the counters, patch sizes or frame size). -/
theorem planCameras_snd_preserves (f : ℚ) (cs : List GipumaCamera)
    (ap : AlgorithmParameters) :
    (planCameras f cs ap).2.depthMin = ap.depthMin ∧
    (planCameras f cs ap).2.depthMax = ap.depthMax ∧
    (planCameras f cs ap).2.min_angle = ap.min_angle ∧
    (planCameras f cs ap).2.max_angle = ap.max_angle := by
  induction cs generalizing ap with
  | nil => exact ⟨rfl, rfl, rfl, rfl⟩
  | cons c rest ih => exact ih _

/-- Projection fact used by several claim proofs: the algorithm parameters
of the planned state are the planning-loop output with the frame size
recorded. -/
theorem plannedState_algoParams (st : GipumaKernelState) ( w h : ℕ) :
    (plannedState st w h).algoParams =
      { (planCameras st.cameraParams.f st.cameraParams.cameras st.algoParams).2 with
        cols := w, rows := h } := rfl

/-- Projection fact: the view-selection subset of the planned state is the
filter computed by `selectViews`. -/
theorem plannedState_subset (st : GipumaKernelState) ( w h : ℕ) :
    (plannedState st w h).cameraParams.viewSelectionSubset =
      (List.range st.cameraParams.cameras.length).filter
        (viewQualifies st.algoParams st.cameraParams.cameras) := rfl

/-- Projection fact: the results buffer of the planned state. -/
theorem plannedState_lines (st : GipumaKernelState) ( w h : ℕ) :
    (plannedState st w h).lines =
      { ({ st.lines with n := h * w }).resize (h * w) with s := w, l := w } := rfl

/-- Resizing never touches the `n` field. -/
theorem LineState.n_resize (ls : LineState) (m : ℕ) : (ls.resize m).n = ls.n := by
  unfold LineState.resize
  split <;> rfl

/-- Successful planning forces a non-empty camera list (the selected views
are indices into it). -/
theorem cameras_ne_nil_of_ok (st : GipumaKernelState) ( w h : ℕ)
    (st' : GipumaKernelState) (hok : new_frame_info st w h = PlanResult.ok st') :
    st.cameraParams.cameras ≠ [] := by
  obtain ⟨hpos, -⟩ := (new_frame_info_ok_iff st w h st').mp hok
  have hle : ((List.range st.cameraParams.cameras.length).filter
      (viewQualifies st.algoParams st.cameraParams.cameras)).length ≤
      st.cameraParams.cameras.length :=
    le_trans (List.length_filter_le _ _) (le_of_eq (List.length_range _))
  exact List.length_pos.mp (lt_of_lt_of_le hpos hle)

/-- C2 (amended): after planning succeeds, the stored disparity bounds
satisfy `minDisparity = baseline·f/depthMax` and `maxDisparity =
baseline·f/depthMin` for the baseline of the last camera processed by the
loop; in particular, when every camera of the rig has the same baseline
`b` — as in the spec's concrete scenario — the single stored pair equals
the formula evaluated at `b`. -/
theorem c2_disparity_bounds_uniform_baseline (st : GipumaKernelState) ( w h : ℕ)
    (b : ℚ) (st' : GipumaKernelState)
    (hall : ∀ c ∈ st.cameraParams.cameras, c.baseline = b)
    (hok : new_frame_info st w h = PlanResult.ok st') :
    st'.algoParams.min_disparity =
      disparityDepthConversion st.cameraParams.f b st.algoParams.depthMax ∧
    st'.algoParams.max_disparity =
      disparityDepthConversion st.cameraParams.f b st.algoParams.depthMin := by
  have hne := cameras_ne_nil_of_ok st w h st' hok
  obtain ⟨-, rfl⟩ := (new_frame_info_ok_iff st w h st').mp hok
  have hlast := List.getLast?_eq_getLast_of_ne_nil hne
  have hmem := List.getLast_mem hne
  have hb : (st.cameraParams.cameras.getLast hne).baseline = b := hall _ hmem
  rw [plannedState_algoParams,
    planCameras_snd st.cameraParams.f st.cameraParams.cameras st.algoParams _ hlast, hb]
  exact ⟨rfl, rfl⟩

/-- Two-camera example rig: shared focal length 700, both baselines 10,
both auxiliary angles well inside the angle domain, depth bounds 1 and
100 — the spec's concrete planning scenario. -/
def exCam (b angle : ℚ) : GipumaCamera :=
  { P := List.replicate 12 0, baseline := b, rayAngle := angle
    depthMin := 0, depthMax := 0 }

/-- Kernel state holding a built rig with the given focal length, cameras
and depth bounds, ready for planning. -/
def mkRigState (f : ℚ) (cams : List GipumaCamera) (dMin dMax : ℚ) : GipumaKernelState :=
  { valid := { success := true, msg := "" }
    numCameras := cams.length
    algoParams :=
      { num_img_processed := cams.length
        min_angle := 1
        max_angle := 90
        min_disparity := 0
        max_disparity := 256
        depthMin := dMin
        depthMax := dMax
        iterations := 8
        box_hsize := 19
        box_vsize := 19
        cols := 0
        rows := 0 }
    cameraParams := { f := f, cameras := cams, viewSelectionSubset := [] }
    lines := { n := 0, size := 0, capacity := 0, allocCount := 0, s := 0, l := 0 }
    stateViewSelectionSubset := []
    viewSelectionSubsetNumber := 0
    stateCols := 0
    stateRows := 0
    rigBuilt := true }

/-- The spec's concrete scenario: 2 cameras, baseline 10, focal length 700,
depth bounds 1 and 100. -/
def exRigUniform : GipumaKernelState :=
  mkRigState 700 [exCam 10 45, exCam 10 45] 1 100

/-- A rig identical to `exRigUniform` except that the two cameras have
different baselines (10 and 20). -/
def exRigMixed : GipumaKernelState :=
  mkRigState 700 [exCam 10 45, exCam 20 45] 1 100

/-- Concrete fact used by the witnesses: planning the uniform example rig
succeeds (camera 1 qualifies under the angle bounds). -/
theorem exRigUniform_plan_ok :
    new_frame_info exRigUniform 64 48 = PlanResult.ok (plannedState exRigUniform 64 48) :=
  (new_frame_info_ok_iff exRigUniform 64 48 _).mpr ⟨by decide, rfl⟩

/-- Concrete fact used by the witnesses: planning the mixed-baseline
example rig succeeds. -/
theorem exRigMixed_plan_ok :
    new_frame_info exRigMixed 64 48 = PlanResult.ok (plannedState exRigMixed 64 48) :=
  (new_frame_info_ok_iff exRigMixed 64 48 _).mpr ⟨by decide, rfl⟩

/-- C2 witness: on the spec's concrete scenario (baseline 10, focal length
700, depthMin 1, depthMax 100) planning succeeds and stores
minDisparity = 70 and maxDisparity = 7000. -/
theorem c2_disparity_bounds_witness :
    new_frame_info exRigUniform 64 48 = PlanResult.ok (plannedState exRigUniform 64 48) ∧
    (plannedState exRigUniform 64 48).algoParams.min_disparity = 70 ∧
    (plannedState exRigUniform 64 48).algoParams.max_disparity = 7000 := by
  have h := c2_disparity_bounds_uniform_baseline exRigUniform 64 48 10
    (plannedState exRigUniform 64 48) (by decide) exRigUniform_plan_ok
  refine ⟨exRigUniform_plan_ok, ?_, ?_⟩
  · rw [h.1]
    show disparityDepthConversion 700 10 100 = 70
    norm_num [disparityDepthConversion]
  · rw [h.2]
    show disparityDepthConversion 700 10 1 = 7000
    norm_num [disparityDepthConversion]

/-- C2 counterexample: with two cameras of different baselines (10 and 20)
planning succeeds, the first camera's baseline is 10, yet the single stored
`min_disparity` does not equal `f·10/depthMax` — the claimed per-camera
formula fails for that camera (the loop overwrote its value with the last
camera's). -/
theorem c2_disparity_bounds_counterexample :
    new_frame_info exRigMixed 64 48 = PlanResult.ok (plannedState exRigMixed 64 48) ∧
    Option.map GipumaCamera.baseline exRigMixed.cameraParams.cameras.head? = some 10 ∧
    (plannedState exRigMixed 64 48).algoParams.min_disparity ≠
      disparityDepthConversion exRigMixed.cameraParams.f 10
        exRigMixed.algoParams.depthMax := by
  have hlast : exRigMixed.cameraParams.cameras.getLast? = some (exCam 20 45) := rfl
  have hsnd := planCameras_snd exRigMixed.cameraParams.f exRigMixed.cameraParams.cameras
    exRigMixed.algoParams (exCam 20 45) hlast
  have hmin : (plannedState exRigMixed 64 48).algoParams.min_disparity =
      disparityDepthConversion exRigMixed.cameraParams.f (exCam 20 45).baseline
        exRigMixed.algoParams.depthMax := by
    rw [plannedState_algoParams, hsnd]
  refine ⟨exRigMixed_plan_ok, rfl, ?_⟩
  rw [hmin]
  show disparityDepthConversion 700 20 100 ≠ disparityDepthConversion 700 10 100
  norm_num [disparityDepthConversion]

/-- C10: for a rig of at least two cameras, the stored disparity pair left
by planning is exactly the formula evaluated at the baseline of the last
camera (index `numCameras − 1`); the values computed for earlier cameras
were overwritten by the loop. -/
theorem c10_last_camera_baseline_wins (st : GipumaKernelState) ( w h : ℕ)
    (c : GipumaCamera) (st' : GipumaKernelState)
    (hn : st.numCameras = st.cameraParams.cameras.length)
    ( _htwo : 2 ≤ st.numCameras)
    (hidx : st.cameraParams.cameras[st.numCameras - 1]? = some c)
    (hok : new_frame_info st w h = PlanResult.ok st') :
    st'.algoParams.min_disparity =
      disparityDepthConversion st.cameraParams.f c.baseline st.algoParams.depthMax ∧
    st'.algoParams.max_disparity =
      disparityDepthConversion st.cameraParams.f c.baseline st.algoParams.depthMin := by
  obtain ⟨-, rfl⟩ := (new_frame_info_ok_iff st w h st').mp hok
  have hlast : st.cameraParams.cameras.getLast? = some c := by
    rw [List.getLast?_eq_getElem?, ← hn]
    exact hidx
  rw [plannedState_algoParams,
    planCameras_snd st.cameraParams.f st.cameraParams.cameras st.algoParams c hlast]
  exact ⟨rfl, rfl⟩

/-- C10 witness: on the mixed-baseline rig (baselines 10 then 20, focal
length 700, depth bounds 1 and 100) the stored bounds are those of the
last camera: min 140 = 700·20/100 and max 14000 = 700·20/1. -/
theorem c10_last_camera_baseline_witness :
    (plannedState exRigMixed 64 48).algoParams.min_disparity = 140 ∧
    (plannedState exRigMixed 64 48).algoParams.max_disparity = 14000 := by
  have h := c10_last_camera_baseline_wins exRigMixed 64 48 (exCam 20 45)
    (plannedState exRigMixed 64 48) (by decide) (by decide) (by decide)
    exRigMixed_plan_ok
  refine ⟨?_, ?_⟩
  · rw [h.1]
    show disparityDepthConversion 700 20 100 = 140
    norm_num [disparityDepthConversion]
  · rw [h.2]
    show disparityDepthConversion 700 20 1 = 14000
    norm_num [disparityDepthConversion]

/-- C4: whenever the rig is valid — some auxiliary camera qualifies under
the angle bounds — planning succeeds without tripping the assertion, the
computed view-selection subset is non-empty, and every index it contains
lies below the camera count. -/
theorem c4_view_subset_nonempty_in_range (st : GipumaKernelState) ( w h i : ℕ)
    (hn : st.numCameras = st.cameraParams.cameras.length)
    (hq : viewQualifies st.algoParams st.cameraParams.cameras i = true) :
    new_frame_info st w h = PlanResult.ok (plannedState st w h) ∧
    0 < (plannedState st w h).cameraParams.viewSelectionSubset.length ∧
    ∀ j ∈ (plannedState st w h).cameraParams.viewSelectionSubset, j < st.numCameras := by
  have hi : i < st.cameraParams.cameras.length := by
    by_contra hge
    have hnone : st.cameraParams.cameras[i]? = none :=
      List.getElem?_eq_none (le_of_not_lt hge)
    unfold viewQualifies at hq
    rw [hnone] at hq
    exact Bool.noConfusion hq
  have hmem : i ∈ (List.range st.cameraParams.cameras.length).filter
      (viewQualifies st.algoParams st.cameraParams.cameras) :=
    List.mem_filter.mpr ⟨List.mem_range.mpr hi, hq⟩
  have hpos : 0 < ((List.range st.cameraParams.cameras.length).filter
      (viewQualifies st.algoParams st.cameraParams.cameras)).length :=
    List.length_pos.mpr (List.ne_nil_of_mem hmem)
  refine ⟨(new_frame_info_ok_iff st w h _).mpr ⟨hpos, rfl⟩, ?_, ?_⟩
  · rw [plannedState_subset]
    exact hpos
  · intro j hj
    rw [plannedState_subset] at hj
    have hjr := List.mem_filter.mp hj
    rw [hn]
    exact List.mem_range.mp hjr.1

/-- C4 witness: on the uniform example rig camera index 1 qualifies, so
planning succeeds with a non-empty, in-range view-selection subset. -/
theorem c4_view_subset_witness :
    new_frame_info exRigUniform 64 48 = PlanResult.ok (plannedState exRigUniform 64 48) ∧
    0 < (plannedState exRigUniform 64 48).cameraParams.viewSelectionSubset.length := by
  have h := c4_view_subset_nonempty_in_range exRigUniform 64 48 1 (by decide) (by decide)
  exact ⟨h.1, h.2.1⟩

/-- C8: whenever planning succeeds for frame size `w × h`, the results
buffer holds exactly `w·h` elements (both its element count `n` and its
stored size), and the strides `s` and `l` are both set to the width. -/
theorem c8_lines_sized_to_frame (st : GipumaKernelState) ( w h : ℕ)
    (st' : GipumaKernelState) (hok : new_frame_info st w h = PlanResult.ok st') :
    st'.lines.size = w * h ∧ st'.lines.n = w * h ∧
    st'.lines.s = w ∧ st'.lines.l = w := by
  obtain ⟨-, rfl⟩ := (new_frame_info_ok_iff st w h st').mp hok
  rw [plannedState_lines]
  refine ⟨?_, ?_, rfl, rfl⟩
  · show (({ st.lines with n := h * w }).resize (h * w)).size = w * h
    rw [LineState.size_resize, Nat.mul_comm]
  · show (({ st.lines with n := h * w }).resize (h * w)).n = w * h
    rw [LineState.n_resize, Nat.mul_comm]

/-- C8 witness: planning the uniform example rig at 64 × 48 leaves a
results buffer of 3072 elements with both strides 64. -/
theorem c8_lines_sized_witness :
    (plannedState exRigUniform 64 48).lines.size = 64 * 48 ∧
    (plannedState exRigUniform 64 48).lines.s = 64 := by
  have h := c8_lines_sized_to_frame exRigUniform 64 48
    (plannedState exRigUniform 64 48) exRigUniform_plan_ok
  exact ⟨h.1, h.2.2.1⟩

/-- The qualification test ignores the depth bounds of the cameras, which
are the only camera fields the planning loop overwrites. -/
theorem viewQualifies_map_depth (ap : AlgorithmParameters) (cs : List GipumaCamera)
    (d1 d2 : ℚ) (i : ℕ) :
    viewQualifies ap (cs.map (fun c => { c with depthMin := d1, depthMax := d2 })) i =
      viewQualifies ap cs i := by
  unfold viewQualifies
  rw [List.getElem?_map]
  cases cs[i]? <;> rfl

/-- The qualification test reads only the angle bounds of the algorithm
parameters. -/
theorem viewQualifies_congr_angles (ap ap' : AlgorithmParameters)
    (h1 : ap'.min_angle = ap.min_angle) (h2 : ap'.max_angle = ap.max_angle)
    (cs : List GipumaCamera) (i : ℕ) :
    viewQualifies ap' cs i = viewQualifies ap cs i := by
  unfold viewQualifies
  cases cs[i]? with
  | none => rfl
  | some c => rw [h1, h2]

/-- A positive selected-view count forces a non-empty camera list. -/
theorem cameras_ne_nil_of_pos (st : GipumaKernelState)
    (hpos : 0 < ((List.range st.cameraParams.cameras.length).filter
        (viewQualifies st.algoParams st.cameraParams.cameras)).length) :
    st.cameraParams.cameras ≠ [] := by
  have hle : ((List.range st.cameraParams.cameras.length).filter
      (viewQualifies st.algoParams st.cameraParams.cameras)).length ≤
      st.cameraParams.cameras.length :=
    le_trans (List.length_filter_le _ _) (le_of_eq (List.length_range _))
  exact List.length_pos.mp (lt_of_lt_of_le hpos hle)

/-- Projection fact: the full camera-parameter record of the planned
state. -/
theorem plannedState_cameraParams (st : GipumaKernelState) ( w h : ℕ) :
    (plannedState st w h).cameraParams =
      { f := st.cameraParams.f
        cameras := (planCameras st.cameraParams.f st.cameraParams.cameras st.algoParams).1
        viewSelectionSubset := (List.range st.cameraParams.cameras.length).filter
          (viewQualifies st.algoParams st.cameraParams.cameras) } := rfl

/-- Planning keeps the focal length. -/
theorem plannedState_f (st : GipumaKernelState) ( w h : ℕ) :
    (plannedState st w h).cameraParams.f = st.cameraParams.f := rfl

/-- Planning overwrites each camera's depth bounds and nothing else. -/
theorem plannedState_cameras (st : GipumaKernelState) ( w h : ℕ) :
    (plannedState st w h).cameraParams.cameras =
      st.cameraParams.cameras.map (fun c =>
        { c with depthMin := st.algoParams.depthMin
                 depthMax := st.algoParams.depthMax }) := by
  show (planCameras st.cameraParams.f st.cameraParams.cameras st.algoParams).1 = _
  exact planCameras_fst _ _ _

/-- Planning preserves the depth bounds and angle bounds of the algorithm
parameters. -/
theorem plannedState_algo_preserves (st : GipumaKernelState) ( w h : ℕ) :
    (plannedState st w h).algoParams.depthMin = st.algoParams.depthMin ∧
    (plannedState st w h).algoParams.depthMax = st.algoParams.depthMax ∧
    (plannedState st w h).algoParams.min_angle = st.algoParams.min_angle ∧
    (plannedState st w h).algoParams.max_angle = st.algoParams.max_angle := by
  have hp := planCameras_snd_preserves st.cameraParams.f st.cameraParams.cameras
    st.algoParams
  exact ⟨hp.1, hp.2.1, hp.2.2.1, hp.2.2.2⟩

/-- Replanning at the same state computes the same view-selection subset:
the loop only touched camera depth bounds and disparity fields, which the
qualification test ignores. -/
theorem plannedState_subset_stable (st : GipumaKernelState) ( w h : ℕ) :
    (List.range (plannedState st w h).cameraParams.cameras.length).filter
        (viewQualifies (plannedState st w h).algoParams
          (plannedState st w h).cameraParams.cameras) =
      (List.range st.cameraParams.cameras.length).filter
        (viewQualifies st.algoParams st.cameraParams.cameras) := by
  have hpres := plannedState_algo_preserves st w h
  rw [plannedState_cameras st w h, List.length_map]
  apply List.filter_congr
  intro i hi
  rw [viewQualifies_map_depth]
  exact viewQualifies_congr_angles st.algoParams (plannedState st w h).algoParams
    hpres.2.2.1 hpres.2.2.2 st.cameraParams.cameras i

/-- Resizing leaves at least the requested capacity. -/
theorem LineState.le_capacity_resize (ls : LineState) (m : ℕ) :
    m ≤ (ls.resize m).capacity := by
  unfold LineState.resize
  split
  · next hle => exact hle
  · exact Nat.le_refl m

/-- Resizing to a value within capacity only stores the new size. -/
theorem LineState.resize_of_le (ls : LineState) (m : ℕ) (hle : m ≤ ls.capacity) :
    ls.resize m = { ls with size := m } := by
  unfold LineState.resize
  rw [if_pos hle]

/-- Projection facts about the planned results buffer. -/
theorem plannedState_lines_fields (st : GipumaKernelState) ( w h : ℕ) :
    (plannedState st w h).lines.n = h * w ∧
    (plannedState st w h).lines.size = h * w ∧
    h * w ≤ (plannedState st w h).lines.capacity ∧
    (plannedState st w h).lines.s = w ∧
    (plannedState st w h).lines.l = w := by
  refine ⟨?_, ?_, ?_, rfl, rfl⟩
  · show (({ st.lines with n := h * w }).resize (h * w)).n = h * w
    rw [LineState.n_resize]
  · show (({ st.lines with n := h * w }).resize (h * w)).size = h * w
    rw [LineState.size_resize]
  · show h * w ≤ (({ st.lines with n := h * w }).resize (h * w)).capacity
    exact LineState.le_capacity_resize _ _

/-- Replanning does not change the results buffer: the element count is
already `h·w`, the capacity already suffices (no reallocation), and the
strides are already the width. -/
theorem plannedState_lines_stable (st : GipumaKernelState) ( w h : ℕ) :
    { ({ (plannedState st w h).lines with n := h * w }).resize (h * w) with
        s := w, l := w } = (plannedState st w h).lines := by
  obtain ⟨hn, hsize, hcap, hs, hl⟩ := plannedState_lines_fields st w h
  have h1 : { (plannedState st w h).lines with n := h * w } =
      (plannedState st w h).lines := by
    apply LineState.ext <;> simp [hn]
  rw [h1, LineState.resize_of_le _ _ hcap]
  apply LineState.ext <;> simp [hsize, hs, hl]

/-- Core of the idempotence claim: replanning the already-planned state at
the same resolution reproduces it exactly. -/
theorem plannedState_idem (st : GipumaKernelState) ( w h : ℕ)
    (hpos : 0 < ((List.range st.cameraParams.cameras.length).filter
        (viewQualifies st.algoParams st.cameraParams.cameras)).length) :
    plannedState (plannedState st w h) w h = plannedState st w h := by
  have hne : st.cameraParams.cameras ≠ [] := cameras_ne_nil_of_pos st hpos
  have hlast := List.getLast?_eq_getLast_of_ne_nil hne
  have hpres := plannedState_algo_preserves st w h
  have hsub := plannedState_subset_stable st w h
  -- the last camera of the planned list is the depth-overwritten last camera
  have hlast2 : (plannedState st w h).cameraParams.cameras.getLast? =
      some { st.cameraParams.cameras.getLast hne with
             depthMin := st.algoParams.depthMin
             depthMax := st.algoParams.depthMax } := by
    rw [plannedState_cameras st w h, List.getLast?_eq_getElem?, List.getElem?_map,
      List.length_map, ← List.getLast?_eq_getElem?, hlast]
    rfl
  apply GipumaKernelState.ext
  · rfl
  · rfl
  · -- algorithm parameters
    have hmin : (plannedState st w h).algoParams.min_disparity =
        disparityDepthConversion st.cameraParams.f
          (st.cameraParams.cameras.getLast hne).baseline st.algoParams.depthMax := by
      rw [plannedState_algoParams st w h, planCameras_snd _ _ _ _ hlast]
    have hmax : (plannedState st w h).algoParams.max_disparity =
        disparityDepthConversion st.cameraParams.f
          (st.cameraParams.cameras.getLast hne).baseline st.algoParams.depthMin := by
      rw [plannedState_algoParams st w h, planCameras_snd _ _ _ _ hlast]
    rw [plannedState_algoParams (plannedState st w h) w h,
      planCameras_snd _ _ _ _ hlast2, plannedState_f st w h]
    apply AlgorithmParameters.ext
    · rfl
    · rfl
    · rfl
    · show disparityDepthConversion st.cameraParams.f
          (st.cameraParams.cameras.getLast hne).baseline
          (plannedState st w h).algoParams.depthMax =
        (plannedState st w h).algoParams.min_disparity
      rw [hpres.2.1, hmin]
    · show disparityDepthConversion st.cameraParams.f
          (st.cameraParams.cameras.getLast hne).baseline
          (plannedState st w h).algoParams.depthMin =
        (plannedState st w h).algoParams.max_disparity
      rw [hpres.1, hmax]
    · rfl
    · rfl
    · rfl
    · rfl
    · rfl
    · rfl
    · rfl
  · -- camera parameters
    rw [plannedState_cameraParams (plannedState st w h) w h]
    apply CameraParameters.ext
    · rfl
    · show (planCameras (plannedState st w h).cameraParams.f
          (plannedState st w h).cameraParams.cameras
          (plannedState st w h).algoParams).1 =
        (plannedState st w h).cameraParams.cameras
      rw [planCameras_fst, hpres.1, hpres.2.1, plannedState_cameras st w h,
        List.map_map]
      have hcomp : ((fun c : GipumaCamera =>
          { c with depthMin := st.algoParams.depthMin
                   depthMax := st.algoParams.depthMax }) ∘
          (fun c : GipumaCamera =>
          { c with depthMin := st.algoParams.depthMin
                   depthMax := st.algoParams.depthMax })) =
          (fun c : GipumaCamera =>
          { c with depthMin := st.algoParams.depthMin
                   depthMax := st.algoParams.depthMax }) := by
        funext c
        rfl
      rw [hcomp]
    · show (List.range (plannedState st w h).cameraParams.cameras.length).filter
          (viewQualifies (plannedState st w h).algoParams
            (plannedState st w h).cameraParams.cameras) = _
      rw [hsub]
      rfl
  · -- results buffer
    show { ({ (plannedState st w h).lines with n := h * w }).resize (h * w) with
        s := w, l := w } = (plannedState st w h).lines
    exact plannedState_lines_stable st w h
  · -- copied subset
    show (List.range (plannedState st w h).cameraParams.cameras.length).filter
        (viewQualifies (plannedState st w h).algoParams
          (plannedState st w h).cameraParams.cameras) = _
    rw [hsub]
    rfl
  · -- copied subset count
    show ((List.range (plannedState st w h).cameraParams.cameras.length).filter
        (viewQualifies (plannedState st w h).algoParams
          (plannedState st w h).cameraParams.cameras)).length = _
    rw [hsub]
    rfl
  · rfl
  · rfl
  · rfl

/-- C9: planning is idempotent — if `new_frame_info` succeeds once for a
resolution, running it again on the resulting state with the same
resolution succeeds and returns that state unchanged (in particular the
`AlgorithmParameters` are identical and `allocCount`, the number of
reallocations of the results buffer, does not grow). -/
theorem c9_planner_idempotent (st : GipumaKernelState) ( w h : ℕ)
    (st1 : GipumaKernelState) (hok : new_frame_info st w h = PlanResult.ok st1) :
    new_frame_info st1 w h = PlanResult.ok st1 := by
  obtain ⟨hpos, rfl⟩ := (new_frame_info_ok_iff st w h st1).mp hok
  apply (new_frame_info_ok_iff (plannedState st w h) w h (plannedState st w h)).mpr
  constructor
  · rw [plannedState_subset_stable st w h]
    exact hpos
  · exact (plannedState_idem st w h hpos).symm

/-- C9 witness: replanning the planned uniform example rig at the same
64 × 48 resolution returns the state unchanged. -/
theorem c9_planner_idempotent_witness :
    new_frame_info (plannedState exRigUniform 64 48) 64 48 =
      PlanResult.ok (plannedState exRigUniform 64 48) :=
  c9_planner_idempotent exRigUniform 64 48 (plannedState exRigUniform 64 48)
    exRigUniform_plan_ok

/-- Example rig on which no auxiliary view qualifies: both cameras sit at
viewing-ray angle 0, below the fixed 1-degree minimum. -/
def exRigNoViews : GipumaKernelState :=
  mkRigState 700 [exCam 10 0, exCam 10 0] 1 100

/-- C5 counterexample: for a rig whose view-selection subset comes out
empty, planning does not surface the configuration error through a validity
status — it trips the fatal `assert(selected_views > 0)` (modelled by the
`assertFailed` outcome), crashing the process rather than leaving the
kernel in a safely inert state. -/
theorem c5_error_surfacing_counterexample :
    new_frame_info exRigNoViews 64 48 = PlanResult.assertFailed := by
  decide

/-- C5 (amended): the camera/channel-count configuration error — when the
constructor's test detects one — is surfaced only through the validity
status (construction completes, marks the kernel invalid and skips rig
building, raising no fault); but an empty view-selection subset after
planning is raised as a fatal assertion failure instead of being surfaced
through a status. -/
theorem c5_config_errors_surfaced (gcp : CameraParameters → CameraParameters)
    (args : GipumaArgs) (inputColumns : ℕ) (st : GipumaKernelState) ( w h : ℕ)
    (hfire : mismatchTestFires args.cameras.length inputColumns = true)
    (hempty : (selectViews st.cameraParams w h st.algoParams).viewSelectionSubset = []) :
    (GipumaKernel.validate (GipumaKernel.construct gcp args inputColumns)).success = false ∧
    (GipumaKernel.construct gcp args inputColumns).rigBuilt = false ∧
    new_frame_info st w h = PlanResult.assertFailed := by
  refine ⟨?_, ?_, ?_⟩
  · simp [GipumaKernel.validate, GipumaKernel.construct, hfire]
  · simp [GipumaKernel.construct, hfire]
  · simp [new_frame_info, hempty]

/-- Configuration declaring a single camera (used with zero input columns,
one of the few mismatches the miswritten cardinality test still
detects). -/
def oneCameraArgs : GipumaArgs :=
  { cameras := [List.replicate 12 0]
    min_disparity := 0
    max_disparity := 256
    min_depth := 1
    max_depth := 100
    iterations := 8
    kernel_width := 19
    kernel_height := 19 }

/-- C5 witness: one declared camera with zero input columns is detected and
surfaced through the validity status, while the empty-subset rig trips the
fatal planning assertion. -/
theorem c5_config_errors_surfaced_witness :
    (GipumaKernel.validate (GipumaKernel.construct id oneCameraArgs 0)).success = false ∧
    new_frame_info exRigNoViews 64 48 = PlanResult.assertFailed := by
  have h := c5_config_errors_surfaced id oneCameraArgs 0 exRigNoViews 64 48
    (by decide) (by decide)
  exact ⟨h.1, h.2.2⟩

/-- Modelled from the spec: the color-to-grayscale conversion of the
preprocessing step (OpenCV `cvtColor` with `CV_BGR2GRAY` followed by
`convertTo` to floating point, external collaborators of this kernel):
packed 8-bit BGR triples are reduced by the standard luma combination and
widened to a floating-point channel. -/
def grayscaleOf : List ℕ → List ℚ
  | b :: g :: r :: rest =>
      ((299 * (r : ℚ) + 587 * (g : ℚ) + 114 * (b : ℚ)) / 1000) :: grayscaleOf rest
  | _ => []

/-- Sequential fallible map, mirroring a C++ loop that aborts at the first
failing iteration. -/
def mapOrFail {α β : Type} (f : α → Option β) : List α → Option (List β)
  | [] => some []
  | a :: rest =>
    match f a with
    | none => none
    | some b =>
      match mapOrFail f rest with
      | none => none
      | some bs => some (b :: bs)

/-- Preprocessing of frame `i` (`execute`, lines 131–141): for each camera
channel `c` the row `i` of input column `c·2` is taken, its byte size is
asserted to be `width·height·3` (`none` models the fatal per-row assertion
failure), and the buffer is converted to grayscale. -/
def preprocessFrame (cols : List (List (List ℕ))) (numCameras w h i : ℕ) :
    Option (List (List ℚ)) :=
  mapOrFail (fun c =>
      let row := (cols.getD (c * 2) []).getD i []
      if row.length = w * h * 3 then some (grayscaleOf row) else none)
    (List.range numCameras)

/-- Running count of texture-array bindings (`addImageToTextureFloatGray`)
and releases (`delTexture`) performed during a batch. -/
@[ext]
structure ResourceLog where
  binds : ℕ
  releases : ℕ
deriving DecidableEq

/-- Outcome of a batch execution: the ordered output rows together with the
resource log, or the fatal per-row assertion failure (with the log of the
work done before it). -/
inductive ExecResult where
  | ok (outputs : List (List ℚ)) (log : ResourceLog)
  | assertFailed (log : ResourceLog)
deriving DecidableEq

/-- Resource log of an execution outcome, fatal or not. -/
def ExecResult.rlog : ExecResult → ResourceLog
  | ExecResult.ok _ log => log
  | ExecResult.assertFailed log => log

/-- Whether the execution ended in the fatal assertion. -/
def ExecResult.isFatal : ExecResult → Bool
  | ExecResult.ok _ _ => false
  | ExecResult.assertFailed _ => true

/-- Per-frame loop of `GipumaKernel::execute` (lines 130–158) over the list
of frame indices: preprocess the frame (fatal on a row-size mismatch), bind
the grayscale images as a GPU texture array, run the solver, copy the first
`w·h·4` floats of its result buffer into the output row, and release the
texture array.  The solver is a parameter (`runcuda` over the fixed rig and
parameters, an external collaborator); its status flag is ignored, exactly
as the source ignores the CUDA return codes, so a failing solve still
reaches the release.  One binding and one release are counted per frame
reaching the texture-bound stage. -/
def execFrames (solve : List (List ℚ) → Bool × List ℚ)
    (cols : List (List (List ℕ))) (numCameras w h : ℕ) :
    List ℕ → ExecResult
  | [] => ExecResult.ok [] { binds := 0, releases := 0 }
  | i :: rest =>
    match preprocessFrame cols numCameras w h i with
    | none => ExecResult.assertFailed { binds := 0, releases := 0 }
    | some grays =>
      let out := ((solve grays).2).take (w * h * 4)
      match execFrames solve cols numCameras w h rest with
      | ExecResult.ok outs log =>
          ExecResult.ok (out :: outs)
            { binds := log.binds + 1, releases := log.releases + 1 }
      | ExecResult.assertFailed log =>
          ExecResult.assertFailed
            { binds := log.binds + 1, releases := log.releases + 1 }

/-- Embedding of `GipumaKernel::execute`: the frame count is the row count
of input column 0, the frame size is the one recorded by the planner, and
the frames are processed strictly in order.  (The device re-binding and the
host-side output-buffer allocation have no observable effect in this model
and are omitted.) -/
def GipumaKernel.execute (st : GipumaKernelState)
    (solve : List (List ℚ) → Bool × List ℚ)
    (cols : List (List (List ℕ))) : ExecResult :=
  execFrames solve cols st.numCameras st.stateCols st.stateRows
    (List.range (cols.getD 0 []).length)

/-- Balance invariant of the frame loop: on every outcome, fatal or not,
the number of texture releases equals the number of texture bindings. -/
theorem execFrames_balanced (solve : List (List ℚ) → Bool × List ℚ)
    (cols : List (List (List ℕ))) (n w h : ℕ) (is : List ℕ) :
    (execFrames solve cols n w h is).rlog.binds =
      (execFrames solve cols n w h is).rlog.releases := by
  induction is with
  | nil => rfl
  | cons i rest ih =>
    cases hpre : preprocessFrame cols n w h i with
    | none => simp [execFrames, hpre, ExecResult.rlog]
    | some grays =>
      cases hrec : execFrames solve cols n w h rest with
      | ok outs log =>
        rw [hrec] at ih
        simp only [ExecResult.rlog] at ih
        simp [execFrames, hpre, hrec, ExecResult.rlog]
        omega
      | assertFailed log =>
        rw [hrec] at ih
        simp only [ExecResult.rlog] at ih
        simp [execFrames, hpre, hrec, ExecResult.rlog]
        omega

/-- C6: for every kernel state, solver behaviour (including partially
failing solves, whose ignored status is modelled by the solver's Bool
flag) and batch input, the texture-array releases performed by `execute`
equal the texture-array bindings — also on the fatal exit path, where the
aborting frame has not yet bound its textures. -/
theorem c6_texture_bind_release_balanced (st : GipumaKernelState)
    (solve : List (List ℚ) → Bool × List ℚ) (cols : List (List (List ℕ))) :
    (GipumaKernel.execute st solve cols).rlog.binds =
      (GipumaKernel.execute st solve cols).rlog.releases :=
  execFrames_balanced solve cols st.numCameras st.stateCols st.stateRows
    (List.range (cols.getD 0 []).length)

/-- Output row produced for frame `i`: the first `w·h·4` floats of the
solver result on that frame's grayscale images. -/
def solverRow (solve : List (List ℚ) → Bool × List ℚ) (cols : List (List (List ℕ)))
    (numCameras w h i : ℕ) : List ℚ :=
  ((solve ((preprocessFrame cols numCameras w h i).getD [])).2).take (w * h * 4)

/-- When every frame preprocesses cleanly, the loop returns one output row
per frame, in frame order. -/
theorem execFrames_all_ok (solve : List (List ℚ) → Bool × List ℚ)
    (cols : List (List (List ℕ))) (n w h : ℕ) (is : List ℕ)
    (hpre : ∀ i ∈ is, (preprocessFrame cols n w h i).isSome = true) :
    execFrames solve cols n w h is =
      ExecResult.ok (is.map (solverRow solve cols n w h))
        { binds := is.length, releases := is.length } := by
  induction is with
  | nil => rfl
  | cons i rest ih =>
    obtain ⟨grays, hg⟩ := Option.isSome_iff_exists.mp
      (hpre i (List.mem_cons_self i rest))
    have hrest := ih (fun j hj => hpre j (List.mem_cons_of_mem i hj))
    simp [execFrames, hg, hrest, solverRow]

/-- C3: when the batch is well-formed (every frame of every camera channel
preprocesses cleanly) and the solver honours its contract of filling the
`w·h·4`-float result buffer, `execute` on `K` input frame-sets returns
exactly the list of the `K` per-frame solver rows in input order — the
`i`-th output row is the solver result for the `i`-th frame-set — and every
output row has `w·h·4` floats. -/
theorem c3_execute_order_preserving (st : GipumaKernelState)
    (solve : List (List ℚ) → Bool × List ℚ) (cols : List (List (List ℕ))) (K : ℕ)
    (hK : (cols.getD 0 []).length = K)
    (hpre : ∀ i, i < K →
      (preprocessFrame cols st.numCameras st.stateCols st.stateRows i).isSome = true)
    (hsolve : ∀ gs, ((solve gs).2).length = st.stateCols * st.stateRows * 4) :
    GipumaKernel.execute st solve cols =
      ExecResult.ok ((List.range K).map
          (solverRow solve cols st.numCameras st.stateCols st.stateRows))
        { binds := K, releases := K } ∧
    ((List.range K).map
        (solverRow solve cols st.numCameras st.stateCols st.stateRows)).length = K ∧
    ∀ row ∈ (List.range K).map
        (solverRow solve cols st.numCameras st.stateCols st.stateRows),
      row.length = st.stateCols * st.stateRows * 4 := by
  refine ⟨?_, ?_, ?_⟩
  · show execFrames solve cols st.numCameras st.stateCols st.stateRows
        (List.range (cols.getD 0 []).length) = _
    rw [hK, execFrames_all_ok solve cols st.numCameras st.stateCols st.stateRows
      (List.range K) (fun i hi => hpre i (List.mem_range.mp hi)), List.length_range]
  · rw [List.length_map, List.length_range]
  · intro row hrow
    obtain ⟨i, -, rfl⟩ := List.mem_map.mp hrow
    simp [solverRow, List.length_take, hsolve]

/-- Single-camera kernel state planned for a 1 × 1 frame, exercising the
executor on the smallest possible batch. -/
def exExecState : GipumaKernelState :=
  { mkRigState 700 [exCam 10 45] 1 100 with
    numCameras := 1
    stateCols := 1
    stateRows := 1 }

/-- Well-formed one-frame batch: camera 0's image column holds one 3-byte
row (1·1·3), column 1 is the per-frame metadata channel. -/
def exCols : List (List (List ℕ)) := [[[5, 6, 7]], [[0]]]

/-- A solver stub that reports failure status (which the kernel ignores)
and fills the four-float result buffer. -/
def exSolve : List (List ℚ) → Bool × List ℚ := fun _ => (false, [1, 2, 3, 4])

/-- C3 witness: on the one-frame batch the executor returns exactly one
output row, the solver's four floats, with one binding and one release. -/
theorem c3_execute_order_witness :
    GipumaKernel.execute exExecState exSolve exCols =
      ExecResult.ok [[1, 2, 3, 4]] { binds := 1, releases := 1 } := by
  have h := c3_execute_order_preserving exExecState exSolve exCols 1 rfl
    (by decide) (fun gs => rfl)
  rw [h.1]
  rfl

/-- The sequential fallible map fails as soon as any element fails. -/
theorem mapOrFail_eq_none_of_mem {α β : Type} (l : List α) (f : α → Option β) (x : α)
    (hx : x ∈ l) (hfx : f x = none) : mapOrFail f l = none := by
  induction l with
  | nil => simp at hx
  | cons a rest ih =>
    rcases List.mem_cons.mp hx with rfl | hmem
    · simp [mapOrFail, hfx]
    · cases hfa : f a with
      | none => simp [mapOrFail, hfa]
      | some b => simp [mapOrFail, hfa, ih hmem]

/-- A row-size mismatch on any camera channel makes the frame's
preprocessing fail. -/
theorem preprocessFrame_none (cols : List (List (List ℕ))) (n w h i c : ℕ)
    (hc : c < n)
    (hbad : ((cols.getD (c * 2) []).getD i []).length ≠ w * h * 3) :
    preprocessFrame cols n w h i = none := by
  apply mapOrFail_eq_none_of_mem _ _ c (List.mem_range.mpr hc)
  simp only []
  rw [if_neg hbad]

/-- The frame loop ends in the fatal assertion whenever some frame of the
batch fails preprocessing. -/
theorem execFrames_fatal_of_bad (solve : List (List ℚ) → Bool × List ℚ)
    (cols : List (List (List ℕ))) (n w h : ℕ) (is : List ℕ) (i : ℕ)
    (hi : i ∈ is) (hnone : preprocessFrame cols n w h i = none) :
    (execFrames solve cols n w h is).isFatal = true := by
  induction is with
  | nil => simp at hi
  | cons j rest ih =>
    rcases List.mem_cons.mp hi with rfl | hmem
    · simp [execFrames, hnone, ExecResult.isFatal]
    · cases hpre : preprocessFrame cols n w h j with
      | none => simp [execFrames, hpre, ExecResult.isFatal]
      | some grays =>
        have hrest := ih hmem
        cases hrec : execFrames solve cols n w h rest with
        | ok outs log =>
          rw [hrec] at hrest
          simp [ExecResult.isFatal] at hrest
        | assertFailed log =>
          simp [execFrames, hpre, hrec, ExecResult.isFatal]

/-- C7: if any input row of any camera channel of the batch has a byte size
other than `width·height·3`, `execute` ends in the fatal per-row assertion
failure — a crash, not a soft error, producing no output rows. -/
theorem c7_row_size_mismatch_fatal (st : GipumaKernelState)
    (solve : List (List ℚ) → Bool × List ℚ) (cols : List (List (List ℕ)))
    (i c : ℕ) (hi : i < (cols.getD 0 []).length) (hc : c < st.numCameras)
    (hbad : ((cols.getD (c * 2) []).getD i []).length ≠
      st.stateCols * st.stateRows * 3) :
    (GipumaKernel.execute st solve cols).isFatal = true := by
  show (execFrames solve cols st.numCameras st.stateCols st.stateRows
      (List.range (cols.getD 0 []).length)).isFatal = true
  exact execFrames_fatal_of_bad solve cols st.numCameras st.stateCols st.stateRows
    (List.range (cols.getD 0 []).length) i (List.mem_range.mpr hi)
    (preprocessFrame_none cols st.numCameras st.stateCols st.stateRows i c hc hbad)

/-- One-frame batch whose camera-0 row has 2 bytes instead of the required
1·1·3. -/
def exBadCols : List (List (List ℕ)) := [[[5, 6]], [[0]]]

/-- C7 witness: the undersized row makes execution end in the fatal
assertion. -/
theorem c7_row_size_mismatch_witness :
    (GipumaKernel.execute exExecState exSolve exBadCols).isFatal = true :=
  c7_row_size_mismatch_fatal exExecState exSolve exBadCols 0 0
    (by decide) (by decide) (by decide)

end GipumaSpec
